import Mathlib

/-!
Verification of the img2img building blocks and training utilities:
a shallow embedding of `src/cfg/enums.py`, `src/img2img/nn/blocks.py` and
`src/img2img/models/pix2pix/utils.py`, followed by theorems about the
embedded definitions.

Tensors are modelled as the free term algebra over the framework layer
primitives: the repository's own logic is pure composition of pre-built
layers, so every claim about it is a claim about which terms get built,
which the free algebra captures exactly (and universally: any concrete
interpretation factors through it).
-/

namespace Img2Img

/-! ## Enums (`src/cfg/enums.py`) -/

/-- Enum for the dataset type (`DatasetType` in `src/cfg/enums.py`). -/
inductive DatasetType
  | ANIME_DATASET
  | NATURAL_VIEW_DATASET
  | EDGES2SHOES
  | AFHQ_CATS_DATASET
deriving DecidableEq

/-- The hardcoded path each `DatasetType` member is bound to. -/
def DatasetType.value : DatasetType → String
  | .ANIME_DATASET =>
      "/media/omarabdelgawad/New Volume/Datasets/image_coloring/anime_dataset/"
  | .NATURAL_VIEW_DATASET =>
      "/media/omarabdelgawad/New Volume/Datasets/image_coloring/natural_view/"
  | .EDGES2SHOES =>
      "/media/omarabdelgawad/New Volume/Datasets/image_coloring/edges2shoes/"
  | .AFHQ_CATS_DATASET =>
      "/home/eyad/Downloads/afhq/"

/-- Enum for the padding type (`PaddingType` in `src/cfg/enums.py`). -/
inductive PaddingType
  | REFLECT
  | REPLICATE
  | ZERO
deriving DecidableEq

/-- The string value of each `PaddingType` member. -/
def PaddingType.value : PaddingType → String
  | .REFLECT => "reflect"
  | .REPLICATE => "replicate"
  | .ZERO => "zero"

/-- Enum for the normalization type (`NormalizationType` in `src/cfg/enums.py`). -/
inductive NormalizationType
  | BATCH
  | INSTANCE
  | LAYER
  | NONE
deriving DecidableEq

/-- Enum for the activation type (`ActivationType` in `src/cfg/enums.py`). -/
inductive ActivationType
  | RELU
  | LEAKY_RELU
  | TANH
  | SIGMOID
  | NONE
deriving DecidableEq

/-! ## Framework layer primitives

A `Layer` records a pre-built `torch.nn` layer together with the arguments
it was constructed with; the repository only ever composes such layers. -/

/-- A pre-built framework layer with its construction arguments. -/
inductive Layer
  | conv2d (in_channels out_channels kernel_size stride padding : ℤ)
      (padding_mode : String) (bias : Bool)
  | batchNorm2d (num_features : ℤ)
  | instanceNorm2d (num_features : ℤ)
  | layerNorm (normalized_shape : ℤ)
  | identity
  | relu (inplace : Bool)
  | leakyRelu (negative_slope : ℚ) (inplace : Bool)
  | tanh
  | sigmoid
deriving DecidableEq

/-- Tensors as the free term algebra over the operations the repository
applies to them: layer application, `+`, `torch.cat(..., dim=3)`
(concatenation along the width dimension of an NCHW batch), application of
the generator module passed to the utilities, and the two arithmetic steps
of `remove_normalization` (`* cfg.NORM_STD` and `+ cfg.NORM_MEAN`). -/
inductive Tensor
  | input (id : ℤ)
  | app (layer : Layer) (x : Tensor)
  | add (x y : Tensor)
  | catW (x y : Tensor)
  | gen (x : Tensor)
  | mulNormStd (x : Tensor)
  | addNormMean (x : Tensor)
deriving DecidableEq

/-- Running an `nn.Sequential` of layers: apply each layer in order. -/
def run_sequential (layers : List Layer) (x : Tensor) : Tensor :=
  layers.foldl (fun t layer => Tensor.app layer t) x

/-! ## `ConvBlock` (`src/img2img/nn/blocks.py`) -/

/-- `ConvBlock._normalization_selector`: the if/elif chain selecting the
normalization layer from the enum value, with the trailing
`raise NotImplementedError` branch embedded as `Except.error`.
`norm_dim` is `self.norm_dim`, set to `out_channels` by the constructor. -/
def normalization_selector (norm_dim : ℤ) (normalization_type : NormalizationType) :
    Except String Layer :=
  if normalization_type = NormalizationType.BATCH then
    Except.ok (Layer.batchNorm2d norm_dim)
  else if normalization_type = NormalizationType.INSTANCE then
    Except.ok (Layer.instanceNorm2d norm_dim)
  else if normalization_type = NormalizationType.LAYER then
    Except.ok (Layer.layerNorm norm_dim)
  else if normalization_type = NormalizationType.NONE then
    Except.ok Layer.identity
  else
    Except.error "Normalization type is not implemented."

/-- `ConvBlock._activation_layer_selector`: the if/elif chain selecting the
activation layer, with the trailing `raise NotImplementedError` branch
embedded as `Except.error`. -/
def activation_layer_selector (activation_type : ActivationType) :
    Except String Layer :=
  if activation_type = ActivationType.RELU then
    Except.ok (Layer.relu true)
  else if activation_type = ActivationType.LEAKY_RELU then
    Except.ok (Layer.leakyRelu 0.2 true)
  else if activation_type = ActivationType.TANH then
    Except.ok Layer.tanh
  else if activation_type = ActivationType.SIGMOID then
    Except.ok Layer.sigmoid
  else if activation_type = ActivationType.NONE then
    Except.ok Layer.identity
  else
    Except.error "Activation type is not implemented."

/-- The state a constructed `ConvBlock` holds: `self.norm_dim`,
`self.normalization_layer`, `self._activation_layer` and `self.model`. -/
structure ConvBlock where
  norm_dim : ℤ
  normalization_layer : Layer
  activation_layer : Layer
  model : List Layer
deriving DecidableEq

/-- `ConvBlock.__init__`: sets `norm_dim = out_channels`, runs the two
selectors (propagating a `NotImplementedError` as `Except.error`) and builds
`self.model = nn.Sequential(Conv2d(...), normalization_layer, activation_layer)`
with `padding_mode` taken from the padding-type enum value. -/
def ConvBlock.init (in_channels out_channels kernel_size stride padding : ℤ)
    (normalization_type : NormalizationType) (padding_type : PaddingType)
    (activation_type : ActivationType) (bias : Bool := true) :
    Except String ConvBlock := do
  let norm_dim := out_channels
  let normalization_layer ← normalization_selector norm_dim normalization_type
  let activation_layer ← activation_layer_selector activation_type
  Except.ok
    { norm_dim := norm_dim
      normalization_layer := normalization_layer
      activation_layer := activation_layer
      model :=
        [Layer.conv2d in_channels out_channels kernel_size stride padding
          padding_type.value bias,
         normalization_layer,
         activation_layer] }

/-- `ConvBlock.forward`: `x = self.model(x)`. -/
def ConvBlock.forward (b : ConvBlock) (x : Tensor) : Tensor :=
  run_sequential b.model x

/-! ## `ResBlock` (`src/img2img/nn/blocks.py`) -/

/-- The state a constructed `ResBlock` holds: `self.model`, an
`nn.Sequential` of two `ConvBlock`s. -/
structure ResBlock where
  model : List ConvBlock
deriving DecidableEq

/-- `ResBlock.__init__`: `self.model = nn.Sequential(ConvBlock(channels,
channels, ..., activation_type), ConvBlock(channels, channels, ...,
ActivationType.NONE))`; both `ConvBlock`s use the default `bias=True`. -/
def ResBlock.init (channels kernel_size stride padding : ℤ)
    (normalization_type : NormalizationType) (padding_type : PaddingType)
    (activation_type : ActivationType) : Except String ResBlock := do
  let block1 ← ConvBlock.init channels channels kernel_size stride padding
    normalization_type padding_type activation_type true
  let block2 ← ConvBlock.init channels channels kernel_size stride padding
    normalization_type padding_type ActivationType.NONE true
  Except.ok { model := [block1, block2] }

/-- `ResBlock.forward`: `x = self.model(x) + x`. -/
def ResBlock.forward (r : ResBlock) (x : Tensor) : Tensor :=
  Tensor.add (r.model.foldl (fun t b => b.forward t) x) x

/-! ## The `ConvBlocks` constructor loop (`src/img2img/nn/blocks.py`)

`ConvBlocks.__init__` runs
`while layer_multiplier < max_layer_multiplier: append ConvBlock(lm, lm * 2, ...); lm *= 2`.
Python integers are unbounded, so the loop is embedded over `ℤ` with an
explicit fuel parameter; each appended `ConvBlock` is recorded by the
`(in_channels, out_channels)` pair it is constructed with, the data the
loop itself computes (the remaining constructor arguments are passed
through unchanged). Exhausted fuel yields `none`, so `none` for every fuel
means the while loop does not terminate. -/

/-- One fuel-indexed unfolding of the `ConvBlocks.__init__` while loop. -/
def conv_blocks_loop : ℕ → ℤ → ℤ → Option (List (ℤ × ℤ))
  | 0, layer_multiplier, max_layer_multiplier =>
      if layer_multiplier < max_layer_multiplier then none else some []
  | fuel + 1, layer_multiplier, max_layer_multiplier =>
      if layer_multiplier < max_layer_multiplier then
        (conv_blocks_loop fuel (layer_multiplier * 2) max_layer_multiplier).map
          (fun rest => (layer_multiplier, layer_multiplier * 2) :: rest)
      else some []

/-- The channel-count pairs of the `ConvBlock`s built by `ConvBlocks.__init__`,
with fuel `(max_layer_multiplier - layer_multiplier).toNat`, which suffices
whenever `1 ≤ layer_multiplier` since each iteration grows
`layer_multiplier` by at least one. -/
def conv_blocks_layers (layer_multiplier max_layer_multiplier : ℤ) :
    Option (List (ℤ × ℤ)) :=
  conv_blocks_loop (max_layer_multiplier - layer_multiplier).toNat
    layer_multiplier max_layer_multiplier

/-! ## Training utilities (`src/img2img/models/pix2pix/utils.py`)

The two visualization helpers are straight-line code whose observable
behaviour is (a) the sequence of framework side effects they issue
(`save_image`, `writer.add_graph`, `writer.add_image`) and (b) the final
train/eval mode of the generator module. Both are embedded explicitly:
each function returns the list of effects it issued and the generator
mode it leaves behind, as a function of the generator mode it was
called with. -/

/-- The train/eval mode of an `nn.Module`. -/
inductive Mode
  | train
  | eval
deriving DecidableEq

/-- The image file names the utilities build with f-strings:
`f"sample_{epoch}.png"`, `f"label_{epoch}.png"` and `f"val_{idx}.png"`. -/
inductive FileName
  | sample (epoch : ℤ)
  | label (epoch : ℤ)
  | val (idx : ℤ)
deriving DecidableEq

/-- The rendered string of a `FileName`, exactly as the f-strings build it. -/
def FileName.render : FileName → String
  | .sample epoch => "sample_" ++ toString epoch ++ ".png"
  | .label epoch => "label_" ++ toString epoch ++ ".png"
  | .val idx => "val_" ++ toString idx ++ ".png"

/-- A framework side effect issued by the utilities: `save_image(content,
folder / name, ...)`, `writer.add_graph(gen, input)` or
`writer.add_image(tag, content)`. -/
inductive Effect
  | save_image (folder : String) (name : FileName) (content : Tensor)
  | add_graph (input : Tensor)
  | add_image (tag : String) (content : Tensor)
deriving DecidableEq

/-- Whether an effect writes a `sample_{...}.png` image file. -/
def Effect.is_sample_save : Effect → Bool
  | .save_image _ (.sample _) _ => true
  | _ => false

/-- What a run of a utility leaves behind: the effects it issued, in order,
and the generator's final train/eval mode. -/
structure RunResult where
  effects : List Effect
  gen_mode : Mode
deriving DecidableEq

/-- `remove_normalization`: `x * cfg.NORM_STD + cfg.NORM_MEAN`. -/
def remove_normalization (x : Tensor) : Tensor :=
  Tensor.addNormMean (Tensor.mulNormStd x)

/-- `save_some_examples(gen, val_loader, epoch, folder, writer)`.
`x`, `y` stand for the first batch of `val_loader`; the generator is
abstract, so `gen(x)` is the free-algebra term `Tensor.gen x`. The move of
the batch to `cfg.DEVICE` does not change its value and is not recorded. -/
def save_some_examples (gen_mode : Mode) (x y : Tensor) (epoch : ℤ)
    (folder : String) : RunResult :=
  let gen_mode := Mode.eval
  let head :=
    if epoch = 0 then
      [Effect.add_graph x,
       Effect.save_image folder (FileName.label epoch) (remove_normalization y)]
    else []
  let y_fake := Tensor.gen x
  let y_fake := remove_normalization y_fake
  let x_denorm := remove_normalization x
  let x_concat := Tensor.catW x_denorm y_fake
  let tail :=
    [Effect.save_image folder (FileName.sample epoch) x_concat,
     Effect.add_image ("test_image epoch=" ++ toString epoch) x_concat]
  let gen_mode := Mode.train
  { effects := head ++ tail, gen_mode := gen_mode }

/-- `evaluate_val_set(gen, val_loader, folder)`: for each `(x, y)` batch of
the loader, save `torch.cat([y, remove_normalization(gen(x))], dim=3)` as
`val_{idx}.png` (the denormalized `x` is computed but unused), then
`gen.train()`. -/
def evaluate_val_set (gen_mode : Mode) (batches : List (Tensor × Tensor))
    (folder : String) : RunResult :=
  let gen_mode := Mode.eval
  let effects := batches.enum.map (fun p =>
    Effect.save_image folder (FileName.val (p.1 : ℤ))
      (Tensor.catW p.2.2 (remove_normalization (Tensor.gen p.2.1))))
  let gen_mode := Mode.train
  { effects := effects, gen_mode := gen_mode }

/-! ## Checkpoint persistence (`src/img2img/models/pix2pix/utils.py`)

A model is its `state_dict` (a mapping of parameter names to values), an
optimizer is its list of param groups (each a dict holding an `"lr"` entry
among others) together with its per-parameter state; values are modelled
as `ℚ`. `torch.save`/`torch.load` serialize faithfully, so the checkpoint
file is modelled by the checkpoint dict itself. -/

/-- A model or parameter state dict: named values. -/
abbrev StateDict := List (String × ℚ)

/-- One optimizer param group: its `"lr"` entry and its other entries. -/
structure ParamGroup where
  lr : ℚ
  rest : List (String × ℚ)
deriving DecidableEq

/-- What `optimizer.state_dict()` holds: the param groups and the
per-parameter state. -/
structure OptimizerStateDict where
  param_groups : List ParamGroup
  state : List ℚ
deriving DecidableEq

/-- A torch model, identified by its parameters. -/
structure Model where
  params : StateDict
deriving DecidableEq

/-- `model.state_dict()`. -/
def Model.state_dict (m : Model) : StateDict := m.params

/-- `model.load_state_dict(sd)`: replaces the parameters. -/
def Model.load_state_dict (_ : Model) (sd : StateDict) : Model :=
  { params := sd }

/-- A torch optimizer: its param groups and per-parameter state. -/
structure Optimizer where
  param_groups : List ParamGroup
  state : List ℚ
deriving DecidableEq

/-- `optimizer.state_dict()`. -/
def Optimizer.state_dict (o : Optimizer) : OptimizerStateDict :=
  { param_groups := o.param_groups, state := o.state }

/-- `optimizer.load_state_dict(sd)`: replaces param groups and state. -/
def Optimizer.load_state_dict (_ : Optimizer) (sd : OptimizerStateDict) :
    Optimizer :=
  { param_groups := sd.param_groups, state := sd.state }

/-- The checkpoint dict `{"state_dict": ..., "optimizer": ...}`. -/
structure Checkpoint where
  state_dict : StateDict
  optimizer : OptimizerStateDict
deriving DecidableEq

/-- `save_checkpoint(model, optimizer, filename)`: builds the checkpoint
dict and `torch.save`s it to the file. -/
def save_checkpoint (model : Model) (optimizer : Optimizer) : Checkpoint :=
  { state_dict := model.state_dict, optimizer := optimizer.state_dict }

/-- `load_checkpoint(checkpoint_file, model, optimizer, lr)`: loads the
checkpoint, restores model and optimizer from it, then sets
`param_group["lr"] = lr` for every param group of the optimizer. Returns
the updated model and optimizer. -/
def load_checkpoint (checkpoint : Checkpoint) (model : Model)
    (optimizer : Optimizer) (lr : ℚ) : Model × Optimizer :=
  let model := model.load_state_dict checkpoint.state_dict
  let optimizer := optimizer.load_state_dict checkpoint.optimizer
  let optimizer :=
    { optimizer with
        param_groups := optimizer.param_groups.map (fun g => { g with lr := lr }) }
  (model, optimizer)

/-! ## Theorems -/

/-- Claim C1: for every `NormalizationType` and every `ActivationType` that
the `ConvBlock` constructor passes to its selectors, the layer is selected
by the enum value according to the fixed mapping: normalization `BATCH`
yields `BatchNorm2d(out_channels)`, `INSTANCE` yields
`InstanceNorm2d(out_channels)`, `LAYER` yields `LayerNorm(out_channels)`,
`NONE` yields `Identity`; activation `RELU` yields `ReLU`, `LEAKY_RELU`
yields `LeakyReLU` with slope `0.2`, `TANH` yields `Tanh`, `SIGMOID` yields
`Sigmoid`, `NONE` yields `Identity` (here `norm_dim` is `out_channels`, as
set by the constructor). -/
theorem conv_block_layer_selection (norm_dim : ℤ) :
    normalization_selector norm_dim NormalizationType.BATCH =
      Except.ok (Layer.batchNorm2d norm_dim) ∧
    normalization_selector norm_dim NormalizationType.INSTANCE =
      Except.ok (Layer.instanceNorm2d norm_dim) ∧
    normalization_selector norm_dim NormalizationType.LAYER =
      Except.ok (Layer.layerNorm norm_dim) ∧
    normalization_selector norm_dim NormalizationType.NONE =
      Except.ok Layer.identity ∧
    activation_layer_selector ActivationType.RELU =
      Except.ok (Layer.relu true) ∧
    activation_layer_selector ActivationType.LEAKY_RELU =
      Except.ok (Layer.leakyRelu 0.2 true) ∧
    activation_layer_selector ActivationType.TANH =
      Except.ok Layer.tanh ∧
    activation_layer_selector ActivationType.SIGMOID =
      Except.ok Layer.sigmoid ∧
    activation_layer_selector ActivationType.NONE =
      Except.ok Layer.identity :=
  ⟨rfl, rfl, rfl, rfl, rfl, rfl, rfl, rfl, rfl⟩

/-- Claim C8: the `NotImplementedError` branches are unreachable: every
value of the (closed) `NormalizationType` enum makes
`_normalization_selector` return a layer, and every value of the (closed)
`ActivationType` enum makes `_activation_layer_selector` return a layer;
neither ever reaches the raising else-branch. -/
theorem selector_error_branch_unreachable (norm_dim : ℤ)
    (normalization_type : NormalizationType) (activation_type : ActivationType) :
    (∃ layer, normalization_selector norm_dim normalization_type =
      Except.ok layer) ∧
    (∃ layer, activation_layer_selector activation_type = Except.ok layer) := by
  cases normalization_type <;> cases activation_type <;>
    exact ⟨⟨_, rfl⟩, ⟨_, rfl⟩⟩

/-- Claim C2: for every input tensor and every choice of constructor
arguments, `ConvBlock.__init__` succeeds, stores the layers its selectors
chose, and `ConvBlock.forward` is exactly the composition, in order:
the `Conv2d` layer (with `padding_mode` taken from the padding-type enum
value), then the selected normalization layer, then the selected
activation layer. -/
theorem conv_block_forward_composition
    (in_channels out_channels kernel_size stride padding : ℤ)
    (normalization_type : NormalizationType) (padding_type : PaddingType)
    (activation_type : ActivationType) (bias : Bool) (x : Tensor) :
    ∃ norm_layer act_layer block,
      normalization_selector out_channels normalization_type =
        Except.ok norm_layer ∧
      activation_layer_selector activation_type = Except.ok act_layer ∧
      ConvBlock.init in_channels out_channels kernel_size stride padding
        normalization_type padding_type activation_type bias =
        Except.ok block ∧
      block.normalization_layer = norm_layer ∧
      block.activation_layer = act_layer ∧
      block.forward x =
        Tensor.app act_layer (Tensor.app norm_layer
          (Tensor.app
            (Layer.conv2d in_channels out_channels kernel_size stride padding
              padding_type.value bias) x)) := by
  cases normalization_type <;> cases activation_type <;>
    exact ⟨_, _, _, rfl, rfl, rfl, rfl, rfl, rfl⟩

/-- Claim C3: for every input tensor and every choice of constructor
arguments, `ResBlock.__init__` succeeds, its body is the sequential
composition of two `ConvBlock`s over the same channel count — the first
with the given activation type, the second with activation `NONE` — and
`ResBlock.forward x = body(x) + x`. -/
theorem res_block_forward_residual (channels kernel_size stride padding : ℤ)
    (normalization_type : NormalizationType) (padding_type : PaddingType)
    (activation_type : ActivationType) (x : Tensor) :
    ∃ block1 block2 res,
      ConvBlock.init channels channels kernel_size stride padding
        normalization_type padding_type activation_type true =
        Except.ok block1 ∧
      ConvBlock.init channels channels kernel_size stride padding
        normalization_type padding_type ActivationType.NONE true =
        Except.ok block2 ∧
      ResBlock.init channels kernel_size stride padding normalization_type
        padding_type activation_type = Except.ok res ∧
      res.model = [block1, block2] ∧
      res.forward x = Tensor.add (block2.forward (block1.forward x)) x := by
  cases normalization_type <;> cases activation_type <;>
    exact ⟨_, _, _, rfl, rfl, rfl, rfl, rfl⟩

/-- Claim C7: every member of the `DatasetType` enum — there are exactly
the four members `ANIME_DATASET`, `NATURAL_VIEW_DATASET`, `EDGES2SHOES`,
`AFHQ_CATS_DATASET` — is bound to a fixed hardcoded absolute
local-filesystem path: `DatasetType.value` is a constant function of the
member alone (no run-time input appears in its definition), each member's
path is the literal below, and each path is absolute (it extends `/`). -/
theorem dataset_type_hardcoded_paths :
    DatasetType.value DatasetType.ANIME_DATASET =
      "/media/omarabdelgawad/New Volume/Datasets/image_coloring/anime_dataset/" ∧
    DatasetType.value DatasetType.NATURAL_VIEW_DATASET =
      "/media/omarabdelgawad/New Volume/Datasets/image_coloring/natural_view/" ∧
    DatasetType.value DatasetType.EDGES2SHOES =
      "/media/omarabdelgawad/New Volume/Datasets/image_coloring/edges2shoes/" ∧
    DatasetType.value DatasetType.AFHQ_CATS_DATASET =
      "/home/eyad/Downloads/afhq/" ∧
    (∀ d : DatasetType,
      d = DatasetType.ANIME_DATASET ∨ d = DatasetType.NATURAL_VIEW_DATASET ∨
      d = DatasetType.EDGES2SHOES ∨ d = DatasetType.AFHQ_CATS_DATASET) ∧
    (∀ d : DatasetType, ∃ rest, DatasetType.value d = "/" ++ rest) := by
  refine ⟨rfl, rfl, rfl, rfl, fun d => ?_, fun d => ?_⟩
  · cases d
    · exact Or.inl rfl
    · exact Or.inr (Or.inl rfl)
    · exact Or.inr (Or.inr (Or.inl rfl))
    · exact Or.inr (Or.inr (Or.inr rfl))
  · cases d
    · exact ⟨"media/omarabdelgawad/New Volume/Datasets/image_coloring/anime_dataset/", rfl⟩
    · exact ⟨"media/omarabdelgawad/New Volume/Datasets/image_coloring/natural_view/", rfl⟩
    · exact ⟨"media/omarabdelgawad/New Volume/Datasets/image_coloring/edges2shoes/", rfl⟩
    · exact ⟨"home/eyad/Downloads/afhq/", rfl⟩

/-- Claim C10: after either `save_some_examples` or `evaluate_val_set`
returns, the generator is unconditionally in training mode — `gen.train()`
is the last mode change — whatever mode it was in before the call, for
every input. -/
theorem gen_left_in_train_mode (gen_mode : Mode) (x y : Tensor) (epoch : ℤ)
    (folder : String) (batches : List (Tensor × Tensor)) :
    (save_some_examples gen_mode x y epoch folder).gen_mode = Mode.train ∧
    (evaluate_val_set gen_mode batches folder).gen_mode = Mode.train :=
  ⟨rfl, rfl⟩

/-- Claim C5: round trip of checkpoint persistence: loading a checkpoint
saved from `(model, optimizer)` into a compatible `(model2, optimizer2)`
restores `model2`'s state dict to `model`'s saved state dict, and
`optimizer2`'s state to `optimizer`'s saved state, except that the `"lr"`
entry of every param group is overwritten with the `lr` argument (every
other param-group entry is restored unchanged). -/
theorem checkpoint_round_trip (model : Model) (optimizer : Optimizer)
    (model2 : Model) (optimizer2 : Optimizer) (lr : ℚ) :
    (load_checkpoint (save_checkpoint model optimizer) model2 optimizer2
      lr).1.state_dict = model.state_dict ∧
    (load_checkpoint (save_checkpoint model optimizer) model2 optimizer2
      lr).2.state = optimizer.state ∧
    (load_checkpoint (save_checkpoint model optimizer) model2 optimizer2
      lr).2.param_groups =
      optimizer.param_groups.map (fun g => { g with lr := lr }) :=
  ⟨rfl, rfl, rfl⟩

/-- Claim C4: after `load_checkpoint` returns, the `"lr"` entry of every
param group of the optimizer equals the `lr` argument, regardless of the
learning rate stored in the checkpoint. -/
theorem load_checkpoint_lr_override (checkpoint : Checkpoint) (model : Model)
    (optimizer : Optimizer) (lr : ℚ) :
    ∀ g ∈ (load_checkpoint checkpoint model optimizer lr).2.param_groups,
      g.lr = lr := by
  intro g hg
  simp only [load_checkpoint, Optimizer.load_state_dict, List.mem_map] at hg
  obtain ⟨g0, -, rfl⟩ := hg
  rfl

/-- Witness for C4: `load_checkpoint` at a concrete checkpoint whose stored
learning rate is `3`, loaded with `lr = 5`: the one param group of the
result carries `lr = 5`. -/
theorem load_checkpoint_lr_override_witness :
    ParamGroup.lr { lr := 5, rest := [("momentum", 9)] } = 5 :=
  load_checkpoint_lr_override
    { state_dict := [("weight", 1)],
      optimizer := { param_groups := [{ lr := 3, rest := [("momentum", 9)] }],
                     state := [2] } }
    { params := [] } { param_groups := [], state := [] } 5
    { lr := 5, rest := [("momentum", 9)] } (by decide)

/-- Claim C6: every call of `save_some_examples` issues exactly one
`save_image` of a `sample_{...}.png` file, namely `sample_{epoch}.png` in
the given folder, containing the denormalized input batch concatenated
side by side (along the width dimension, `dim=3`) with the denormalized
generator output; and it writes the ground-truth file `label_0.png` and
logs the model graph if and only if `epoch = 0`. -/
theorem save_some_examples_outputs (gen_mode : Mode) (x y : Tensor)
    (epoch : ℤ) (folder : String) :
    (save_some_examples gen_mode x y epoch folder).effects.filter
        Effect.is_sample_save =
      [Effect.save_image folder (FileName.sample epoch)
        (Tensor.catW (remove_normalization x)
          (remove_normalization (Tensor.gen x)))] ∧
    (FileName.sample epoch).render = "sample_" ++ toString epoch ++ ".png" ∧
    ((Effect.save_image folder (FileName.label 0) (remove_normalization y) ∈
        (save_some_examples gen_mode x y epoch folder).effects ∧
      Effect.add_graph x ∈
        (save_some_examples gen_mode x y epoch folder).effects) ↔
      epoch = 0) := by
  refine ⟨?_, rfl, ?_⟩ <;> by_cases h : epoch = 0 <;>
    simp [save_some_examples, Effect.is_sample_save, h]

/-- Auxiliary for C9: `1 ≤ lm → lm ≤ lm * 2 ^ k`. -/
theorem le_mul_two_pow (lm : ℤ) (h1 : 1 ≤ lm) (k : ℕ) : lm ≤ lm * 2 ^ k := by
  have hpow : (1 : ℤ) ≤ 2 ^ k := one_le_pow₀ (by norm_num)
  exact le_mul_of_one_le_right (by linarith) hpow

/-- Auxiliary for C9: with `1 ≤ lm` and enough fuel (each iteration grows
`lm` by at least one), the embedded while loop of `ConvBlocks.__init__`
returns a list of channel pairs, each block doubles its channel count, the
input channel counts are `lm, 2 * lm, 4 * lm, ...` in order, and the input
channel counts are exactly the values `lm * 2 ^ k` strictly below `mx`. -/
theorem conv_blocks_loop_sound (fuel : ℕ) : ∀ lm mx : ℤ, 1 ≤ lm →
    mx ≤ lm + fuel →
    ∃ l, conv_blocks_loop fuel lm mx = some l ∧
      (∀ p ∈ l, p.2 = p.1 * 2) ∧
      l.map Prod.fst = (List.range l.length).map (fun k => lm * 2 ^ k) ∧
      (∀ x : ℤ, (∃ o, (x, o) ∈ l) ↔ ∃ k : ℕ, x = lm * 2 ^ k ∧ x < mx) := by
  induction fuel with
  | zero =>
    intro lm mx h1 h2
    refine ⟨[], by simp [conv_blocks_loop, show ¬lm < mx by omega], by simp,
      by simp, fun x => ?_⟩
    simp only [List.not_mem_nil, exists_const, false_iff, not_exists, not_and,
      not_lt]
    intro k hk
    have := le_mul_two_pow lm h1 k
    omega
  | succ fuel ih =>
    intro lm mx h1 h2
    by_cases hlt : lm < mx
    · obtain ⟨rest, hsome, hdouble, hmap, hmem⟩ :=
        ih (lm * 2) mx (by linarith) (by push_cast at h2 ⊢; linarith)
      refine ⟨(lm, lm * 2) :: rest, ?_, ?_, ?_, fun x => ?_⟩
      · simp [conv_blocks_loop, hlt, hsome]
      · intro p hp
        rcases List.mem_cons.mp hp with h | h
        · subst h; rfl
        · exact hdouble p h
      · rw [List.map_cons, List.length_cons, List.range_succ_eq_map,
          List.map_cons, List.map_map, hmap]
        refine congrArg₂ _ (by simp) (List.map_congr_left fun k _ => ?_)
        simp only [Function.comp_apply, pow_succ]
        ring
      · constructor
        · rintro ⟨o, ho⟩
          rcases List.mem_cons.mp ho with h | h
          · obtain ⟨hx, -⟩ := Prod.mk.injEq .. ▸ h
            exact ⟨0, by simp [hx], by omega⟩
          · obtain ⟨k, hk, hklt⟩ := (hmem x).mp ⟨o, h⟩
            refine ⟨k + 1, ?_, hklt⟩
            rw [hk, pow_succ]; ring
        · rintro ⟨k, hk, hklt⟩
          cases k with
          | zero => exact ⟨lm * 2, by simp [List.mem_cons, hk.trans (by ring)]⟩
          | succ j =>
            obtain ⟨o, ho⟩ := (hmem x).mpr ⟨j, by rw [hk, pow_succ]; ring, hklt⟩
            exact ⟨o, List.mem_cons_of_mem _ ho⟩
    · refine ⟨[], by simp [conv_blocks_loop, hlt], by simp, by simp,
        fun x => ?_⟩
      simp only [List.not_mem_nil, exists_const, false_iff, not_exists,
        not_and, not_lt]
      intro k hk
      have := le_mul_two_pow lm h1 k
      omega

/-- Auxiliary for C9: with `lm ≤ 0` and `lm < mx`, no amount of fuel makes
the embedded while loop of `ConvBlocks.__init__` finish: doubling a
non-positive `lm` never brings it up to `mx`, so the source loop does not
terminate. -/
theorem conv_blocks_loop_stuck (fuel : ℕ) : ∀ lm mx : ℤ, lm ≤ 0 → lm < mx →
    conv_blocks_loop fuel lm mx = none := by
  induction fuel with
  | zero => intro lm mx h0 hlt; simp [conv_blocks_loop, hlt]
  | succ fuel ih =>
    intro lm mx h0 hlt
    simp [conv_blocks_loop, hlt, ih (lm * 2) mx (by linarith) (by linarith)]

/-- Claim C9: for every `layer_multiplier ≥ 1` and every
`max_layer_multiplier`, the `ConvBlocks.__init__` while loop terminates
and produces the finite sequence of `ConvBlock`s whose input channel
counts are `layer_multiplier, 2 * layer_multiplier, 4 * layer_multiplier, ...`
— exactly those values `layer_multiplier * 2 ^ k` strictly below
`max_layer_multiplier`, in order, each block doubling its channel count —
and in particular zero blocks when `layer_multiplier ≥
max_layer_multiplier`. For `layer_multiplier ≤ 0` with `layer_multiplier <
max_layer_multiplier` the loop runs forever (`none` for every fuel), so
`layer_multiplier ≥ 1` is a genuine precondition. -/
theorem conv_blocks_init_channels (layer_multiplier max_layer_multiplier : ℤ) :
    (1 ≤ layer_multiplier →
      ∃ l, conv_blocks_layers layer_multiplier max_layer_multiplier = some l ∧
        (∀ p ∈ l, p.2 = p.1 * 2) ∧
        l.map Prod.fst =
          (List.range l.length).map (fun k => layer_multiplier * 2 ^ k) ∧
        (∀ x : ℤ, (∃ o, (x, o) ∈ l) ↔
          ∃ k : ℕ, x = layer_multiplier * 2 ^ k ∧ x < max_layer_multiplier) ∧
        (max_layer_multiplier ≤ layer_multiplier → l = [])) ∧
    (layer_multiplier ≤ 0 → layer_multiplier < max_layer_multiplier →
      ∀ fuel : ℕ,
        conv_blocks_loop fuel layer_multiplier max_layer_multiplier = none) := by
  constructor
  · intro h1
    obtain ⟨l, hsome, hdouble, hmap, hmem⟩ :=
      conv_blocks_loop_sound (max_layer_multiplier - layer_multiplier).toNat
        layer_multiplier max_layer_multiplier h1 (by omega)
    refine ⟨l, hsome, hdouble, hmap, hmem, fun hge => ?_⟩
    rw [show (max_layer_multiplier - layer_multiplier).toNat = 0 by omega]
      at hsome
    simpa [conv_blocks_loop, show ¬layer_multiplier < max_layer_multiplier
      by omega, eq_comm] using hsome
  · intro h0 hlt fuel
    exact conv_blocks_loop_stuck fuel layer_multiplier max_layer_multiplier
      h0 hlt

/-- Witness for C9: the terminating branch at `layer_multiplier = 1`,
`max_layer_multiplier = 3`, where the loop builds blocks `(1, 2)` and
`(2, 4)`. -/
theorem conv_blocks_init_channels_witness :
    (1 : ℤ) ≤ 1 ∧
    ∃ l, conv_blocks_layers 1 3 = some l ∧
      (∀ p ∈ l, p.2 = p.1 * 2) ∧
      l.map Prod.fst = (List.range l.length).map (fun k => (1 : ℤ) * 2 ^ k) ∧
      (∀ x : ℤ, (∃ o, (x, o) ∈ l) ↔ ∃ k : ℕ, x = 1 * 2 ^ k ∧ x < 3) ∧
      ((3 : ℤ) ≤ 1 → l = []) :=
  ⟨le_refl 1, (conv_blocks_init_channels 1 3).1 (le_refl 1)⟩

end Img2Img
